import Mathlib

/-!
Shallow embedding of the weyobe-time reconciliation core:
the timer store (`src/frontend/src/lib/stores/timer.ts`) and the
time-entries store (`createManualEntry`, `editTimeEntry`,
`loadFromLocalStorage`, `addTimeEntry`).

Modelling conventions:
* ISO timestamp strings are modelled as integer milliseconds since the
  epoch (`Int`); `new Date(a).getTime() - new Date(b).getTime()` becomes
  integer subtraction.  The calendar-date component `now.split('T')[0]`
  is modelled as `ms / 86400000`.
* JS `number` arithmetic on durations and hours is modelled exactly over
  `ℚ` (the values reachable here are decimal fractions far below any
  double-precision pathology).
* The remote API collaborator is a parameter: `RemoteResult α` is either
  the parsed JSON body of a 2xx response or a failure (non-2xx response
  and thrown network errors take the same fallback path in the source).
* `localStorage['completed-time-entries']` (the durable cache) is passed
  and returned explicitly as a `List TimeEntry`.
-/

namespace Weyobe

/-- JS `Number(x.toFixed(2))`: round to two decimal places.  ECMAScript
`toFixed` picks the integer `n` minimising `|n / 10^2 - x|` and on a tie
the larger `n`, which is exactly `⌊x * 100 + 1/2⌋ / 100`. -/
def round2 (q : ℚ) : ℚ := (⌊q * 100 + 1/2⌋ : ℚ) / 100

/-- Helper for `String.prototype.startsWith`, expressed structurally over
the character lists so that it evaluates by `decide`. -/
def listStartsWith : List Char → List Char → Bool
  | _, [] => true
  | [], _ :: _ => false
  | c :: cs, d :: ds => c == d && listStartsWith cs ds

/-- JS `s.startsWith(p)`. -/
def strStartsWith (s p : String) : Bool := listStartsWith s.data p.data

/-- JS `!s.trim()`: the string is empty or whitespace-only. -/
def isBlank (s : String) : Bool := s.data.all Char.isWhitespace

/-- JS truthiness of an optional string: `undefined` and `''` are falsy. -/
def truthy : Option String → Bool
  | none => false
  | some s => !(s == "")

/-- `BreakType` from `src/frontend/src/types/index.ts`. -/
inductive BreakType
  | short_break
  | lunch
  | personal
  deriving DecidableEq

/-- `TimeEntryStatus` from `src/frontend/src/types/index.ts`. -/
inductive EntryStatus
  | draft
  | submitted
  | approved
  | rejected
  deriving DecidableEq

/-- `Project` (the fields the timer store reads). -/
structure Project where
  id : String
  name : String
  billable : Bool
  deriving DecidableEq

/-- `BreakEntry` from `src/frontend/src/types/index.ts`. -/
structure BreakEntry where
  id : String
  time_entry_id : String
  break_type : BreakType
  start_time : Int
  end_time : Option Int
  paid : Bool
  notes : Option String
  deriving DecidableEq

/-- `TimeEntry` from `src/frontend/src/types/index.ts` (the fields the
stores read or write; the optional approval fields are never touched by
the code under study and are omitted). -/
structure TimeEntry where
  id : String
  user_id : String
  organization_id : String
  date : Int
  clock_in : Int
  clock_out : Option Int
  break_entries : List BreakEntry
  project_id : Option String
  description : Option String
  billable : Bool
  status : EntryStatus
  regular_hours : ℚ
  overtime_hours : ℚ
  total_hours : ℚ
  created_at : Int
  updated_at : Int
  deriving DecidableEq

/-- The timer store state (`TimerStore` in `timer.ts`). -/
structure TimerState where
  isActive : Bool
  isPaused : Bool
  startTime : Option Int
  pausedTime : Option Int
  currentProject : Option Project
  currentBreakType : Option BreakType
  elapsedTime : Int
  currentTimeEntry : Option TimeEntry
  breakStartTime : Option Int
  description : String
  deriving DecidableEq

/-- Initial state of the timer store (lines 29-39 of `timer.ts`). -/
def initialTimerState : TimerState where
  isActive := false
  isPaused := false
  startTime := none
  pausedTime := none
  currentProject := none
  currentBreakType := none
  elapsedTime := 0
  currentTimeEntry := none
  breakStartTime := none
  description := ""

/-- Outcome of one remote API call: the parsed body of a 2xx response,
or failure (a non-2xx response and a thrown network error take the same
fallback branch in every operation modelled here). -/
inductive RemoteResult (α : Type)
  | ok (value : α)
  | fail
  deriving DecidableEq

/-- The provisional `TimeEntry` minted by `startTimer` when the clock-in
call fails (lines 73-88 / 103-118 of `timer.ts`). -/
def newTimerEntry (projectId : Option String) (nowMs : Int) : TimeEntry where
  id := "temp-" ++ toString nowMs
  user_id := "current-user"
  organization_id := "current-org"
  date := nowMs / 86400000
  clock_in := nowMs
  clock_out := none
  break_entries := []
  project_id := projectId
  description := none
  billable := false
  status := .draft
  regular_hours := 0
  overtime_hours := 0
  total_hours := 0
  created_at := nowMs
  updated_at := nowMs

/-- `startTimer` (lines 41-130 of `timer.ts`).  Whatever the remote
clock-in returns, the session is (re)started: there is no guard against
an already-active session. -/
def startTimer (s : TimerState) (remote : RemoteResult TimeEntry)
    (projectId : Option String) (nowMs : Int) : TimerState :=
  match remote with
  | .ok timeEntry =>
      { s with isActive := true, isPaused := false, startTime := some nowMs,
               pausedTime := none, elapsedTime := 0,
               currentTimeEntry := some timeEntry, currentBreakType := none }
  | .fail =>
      { s with isActive := true, isPaused := false, startTime := some nowMs,
               pausedTime := none, elapsedTime := 0,
               currentTimeEntry := some (newTimerEntry projectId nowMs),
               currentBreakType := none }

/-- `validateTimerFields` (lines 428-443 of `timer.ts`). -/
def validateTimerFields (s : TimerState) : List String :=
  (if truthy ((s.currentProject).map Project.id) = false ∧
      truthy ((s.currentTimeEntry).bind TimeEntry.project_id) = false then
    ["Please select a project"]
  else []) ++
  (if isBlank s.description then
    ["Please describe what you\x27re working on"]
  else [])

/-- Return value of `stopTimer`: `{ success, errors? }`. -/
structure StopResult where
  success : Bool
  errors : Option (List String)
  deriving DecidableEq

/-- The `set({...})` call that resets the session after a successful
stop (lines 183-193 / 222-232 of `timer.ts`).  Note the source does not
clear `breakStartTime` there. -/
def resetAfterStop (s : TimerState) : TimerState :=
  { s with isActive := false, isPaused := false, startTime := none,
           pausedTime := none, currentProject := none,
           currentBreakType := none, elapsedTime := 0,
           currentTimeEntry := none, description := "" }

/-- `stopTimer` (lines 132-293 of `timer.ts`).  Returns the result, the
new timer state, and the new durable cache
(`localStorage['completed-time-entries']`; `unshift` then `slice(0,100)`
is `(e :: cache).take 100`). -/
def stopTimer (s : TimerState) (remote : RemoteResult TimeEntry)
    (nowMs : Int) (cache : List TimeEntry) :
    StopResult × TimerState × List TimeEntry :=
  let validationErrors := validateTimerFields s
  if validationErrors.length > 0 then
    (⟨false, some validationErrors⟩, s, cache)
  else
    match s.currentTimeEntry with
    | none => (⟨false, some ["No active timer to stop"]⟩, s, cache)
    | some entry =>
      match remote with
      | .ok submittedEntry =>
          let finalEntry := { submittedEntry with description := some s.description }
          (⟨true, none⟩, resetAfterStop s, (finalEntry :: cache).take 100)
      | .fail =>
          let totalMs : Int := nowMs - entry.clock_in
          let totalHours : ℚ := (totalMs : ℚ) / 3600000
          let updatedTimeEntry : TimeEntry :=
            { entry with clock_out := some nowMs, status := .submitted,
                         updated_at := nowMs, description := some s.description,
                         total_hours := round2 totalHours,
                         regular_hours := min totalHours 8,
                         overtime_hours := max 0 (totalHours - 8) }
          (⟨true, none⟩, resetAfterStop s, (updatedTimeEntry :: cache).take 100)

/-- The `BreakEntry` appended by `startBreak` (lines 321-328 of
`timer.ts`). -/
def newBreakEntry (timeEntryId : String) (breakType : BreakType) (nowMs : Int) :
    BreakEntry where
  id := "break-" ++ toString nowMs
  time_entry_id := timeEntryId
  break_type := breakType
  start_time := nowMs
  end_time := none
  paid := breakType == .short_break
  notes := none

/-- `startBreak` (lines 316-341 of `timer.ts`).  A new break entry is
appended whenever a time entry is in flight; there is no check for an
already-open break. -/
def startBreak (s : TimerState) (breakType : BreakType) (nowMs : Int) : TimerState :=
  match s.currentTimeEntry with
  | some entry =>
      { s with currentBreakType := some breakType, breakStartTime := some nowMs,
               currentTimeEntry := some
                 { entry with break_entries :=
                     entry.break_entries ++ [newBreakEntry entry.id breakType nowMs] } }
  | none => s

/-- `breakEntries[breakEntries.length - 1] = { ..., end_time: now }`:
set the end timestamp of the last element of the list. -/
def setLastEnd (nowMs : Int) : List BreakEntry → List BreakEntry
  | [] => []
  | [b] => [{ b with end_time := some nowMs }]
  | b :: rest => b :: setLastEnd nowMs rest

/-- `endBreak` (lines 343-369 of `timer.ts`).  `lastBreakIndex ≥ 0` is
the non-emptiness test on the break list. -/
def endBreak (s : TimerState) (nowMs : Int) : TimerState :=
  match s.currentTimeEntry, s.breakStartTime with
  | some entry, some _ =>
      if entry.break_entries = [] then s
      else
        { s with currentBreakType := none, breakStartTime := none,
                 currentTimeEntry := some
                   { entry with break_entries := setLastEnd nowMs entry.break_entries } }
  | _, _ => s

/-- `addTimeEntry` of the time-entries store (lines 36-50 of the store
source): replace the entry at `findIndex` when the id exists, otherwise
prepend. -/
def addTimeEntry (timeEntries : List TimeEntry) (entry : TimeEntry) : List TimeEntry :=
  match timeEntries.findIdx? (fun e => e.id == entry.id) with
  | some existingIndex => timeEntries.set existingIndex entry
  | none => entry :: timeEntries

/-- `TimeEntryForm` with its `manual_entry` block, timestamps already
parsed to milliseconds (`date` to days).  `break_duration` is carried by
the form but never read by `createManualEntry`. -/
structure ManualEntryForm where
  project_id : Option String
  description : Option String
  billable : Bool
  date : Int
  startMs : Int
  endMs : Int
  break_duration : Int
  deriving DecidableEq

/-- What `createManualEntry` leaves behind: the returned entry, the
in-memory store, and the durable cache. -/
structure ManualResult where
  returned : TimeEntry
  store : List TimeEntry
  cache : List TimeEntry
  deriving DecidableEq

/-- `createManualEntry` (lines 106-189 of the store source).  On a 2xx
response the server entry is adopted; otherwise the local fallback mints
`manual-${Date.now()}`, computes the hours from the raw clock span, and
adopts the local entry.  Both paths `unshift` into the cache and
`slice(0, 100)`. -/
def createManualEntry (data : ManualEntryForm) (remote : RemoteResult TimeEntry)
    (nowMs : Int) (store cache : List TimeEntry) : ManualResult :=
  match remote with
  | .ok newEntry =>
      { returned := newEntry
        store := addTimeEntry store newEntry
        cache := (newEntry :: cache).take 100 }
  | .fail =>
      let totalMs : Int := data.endMs - data.startMs
      let totalHours : ℚ := (totalMs : ℚ) / 3600000
      let localEntry : TimeEntry :=
        { id := "manual-" ++ toString nowMs
          user_id := "current-user"
          organization_id := "current-org"
          date := data.date
          clock_in := data.startMs
          clock_out := some data.endMs
          break_entries := []
          project_id := data.project_id
          description := data.description
          billable := data.billable
          status := .submitted
          regular_hours := min totalHours 8
          overtime_hours := max 0 (totalHours - 8)
          total_hours := round2 totalHours
          created_at := nowMs
          updated_at := nowMs }
      { returned := localEntry
        store := addTimeEntry store localEntry
        cache := (localEntry :: cache).take 100 }

/-- The entry a single `createManualEntry` call adopts; it does not
depend on the current store or cache. -/
def callEntry (c : ManualEntryForm × RemoteResult TimeEntry × Int) : TimeEntry :=
  (createManualEntry c.1 c.2.1 c.2.2 [] []).returned

/-- Run a sequence of `createManualEntry` calls, threading the store and
the durable cache. -/
def runCreateManual (calls : List (ManualEntryForm × RemoteResult TimeEntry × Int))
    (store cache : List TimeEntry) : List TimeEntry × List TimeEntry :=
  calls.foldl
    (fun acc c =>
      let r := createManualEntry c.1 c.2.1 c.2.2 acc.1 acc.2
      (r.store, r.cache))
    (store, cache)

/-- A `Partial<TimeEntry>` patch: `none` means the field is absent from
the patch (the fields the entry-edit dialog actually patches). -/
structure EntryPatch where
  description : Option String
  project_id : Option String
  billable : Option Bool
  clock_in : Option Int
  clock_out : Option Int
  total_hours : Option ℚ
  regular_hours : Option ℚ
  overtime_hours : Option ℚ
  status : Option EntryStatus
  deriving DecidableEq

/-- JS spread `{ ...entry, ...data }` for an `EntryPatch`. -/
def applyPatch (entry : TimeEntry) (data : EntryPatch) : TimeEntry :=
  { entry with
    description := match data.description with
                   | some d => some d
                   | none => entry.description
    project_id := match data.project_id with
                  | some p => some p
                  | none => entry.project_id
    billable := data.billable.getD entry.billable
    clock_in := data.clock_in.getD entry.clock_in
    clock_out := match data.clock_out with
                 | some c => some c
                 | none => entry.clock_out
    total_hours := data.total_hours.getD entry.total_hours
    regular_hours := data.regular_hours.getD entry.regular_hours
    overtime_hours := data.overtime_hours.getD entry.overtime_hours
    status := data.status.getD entry.status }

/-- The local-entry heuristic of `editTimeEntry`/`deleteTimeEntry`
(line 292 of the store source):
`id.startsWith('temp-') || ['1','2','3'].includes(id)`. -/
def isLocalEntry (id : String) : Bool :=
  strStartsWith id "temp-" || id == "1" || id == "2" || id == "3"

/-- `findIndex` followed by assignment at that index: replace the first
list element satisfying the test. -/
def updateFirst (p : TimeEntry → Bool) (e : TimeEntry) : List TimeEntry → List TimeEntry
  | [] => []
  | x :: rest => if p x then e :: rest else x :: updateFirst p e rest

/-- What `editTimeEntry` leaves behind, plus the number of remote
(`PATCH`) calls it issued. -/
structure EditResult where
  result : Except String TimeEntry
  store : List TimeEntry
  cache : List TimeEntry
  remoteCalls : Nat

/-- `editTimeEntry` (lines 287-391 of the store source).  Ids matching
the local heuristic are patched purely locally (pushing to the cache if
absent); all other ids go through the remote `PATCH`, falling back to a
local patch (without a cache push) when it fails. -/
def editTimeEntry (id : String) (data : EntryPatch) (remote : RemoteResult TimeEntry)
    (nowMs : Int) (store cache : List TimeEntry) : EditResult :=
  if isLocalEntry id then
    match store.find? (fun e => e.id == id) with
    | some entry =>
        let updatedEntry := { applyPatch entry data with updated_at := nowMs }
        let store' := updateFirst (fun e => e.id == id) updatedEntry store
        let cache' :=
          if (cache.find? (fun e => e.id == id)).isSome then
            updateFirst (fun e => e.id == id) updatedEntry cache
          else cache ++ [updatedEntry]
        { result := .ok updatedEntry, store := store', cache := cache', remoteCalls := 0 }
    | none =>
        { result := .error "Entry not found", store := store, cache := cache,
          remoteCalls := 0 }
  else
    match remote with
    | .ok updatedEntry =>
        let store' := store.map (fun e => if e.id == id then updatedEntry else e)
        let cache' :=
          if (cache.find? (fun e => e.id == id)).isSome then
            updateFirst (fun e => e.id == id) updatedEntry cache
          else cache
        { result := .ok updatedEntry, store := store', cache := cache', remoteCalls := 1 }
    | .fail =>
        match store.find? (fun e => e.id == id) with
        | some entry =>
            let updatedEntry := { applyPatch entry data with updated_at := nowMs }
            let store' := updateFirst (fun e => e.id == id) updatedEntry store
            let cache' :=
              if (cache.find? (fun e => e.id == id)).isSome then
                updateFirst (fun e => e.id == id) updatedEntry cache
              else cache
            { result := .ok updatedEntry, store := store', cache := cache',
              remoteCalls := 1 }
        | none =>
            { result := .error "Entry not found for fallback update", store := store,
              cache := cache, remoteCalls := 1 }

/-- Stable insertion of an entry into a list sorted by `created_at`
descending: the entry goes before the first strictly-older element, as a
stable JS `sort((a, b) => dateB - dateA)` would place it. -/
def insertByCreated (entry : TimeEntry) : List TimeEntry → List TimeEntry
  | [] => [entry]
  | e :: rest =>
      if e.created_at < entry.created_at then entry :: e :: rest
      else e :: insertByCreated entry rest

/-- Stable sort by `created_at` descending, modelling the JS
`sort((a, b) => dateB.getTime() - dateA.getTime())` (the `created_at`
ISO string is always present and non-empty, so the `|| date` fallback
never fires in the states reachable here). -/
def sortByCreatedDesc : List TimeEntry → List TimeEntry
  | [] => []
  | e :: rest => insertByCreated e (sortByCreatedDesc rest)

/-- The merge loop of `loadFromLocalStorage` (lines 230-239 of the store
source): start from the cached entries and append each in-memory entry
whose id is not already present. -/
def mergeDedup (parsedEntries existingEntries : List TimeEntry) : List TimeEntry :=
  existingEntries.foldl
    (fun mergedEntries entry =>
      if (mergedEntries.find? (fun e => e.id == entry.id)).isSome then mergedEntries
      else mergedEntries ++ [entry])
    parsedEntries

/-- `loadFromLocalStorage` (lines 223-253 of the store source), as a
function of the parsed cache contents and the current in-memory entries:
merge (cached entries first, de-duplicating by id), then sort by
`created_at` descending. -/
def loadFromLocalStorage (parsedEntries existingEntries : List TimeEntry) :
    List TimeEntry :=
  sortByCreatedDesc (mergeDedup parsedEntries existingEntries)

/-- Appended-only trace of `mergeDedup`: the in-memory entries that
actually get appended, each checked against the grown accumulator. -/
def newcomers (acc : List TimeEntry) : List TimeEntry → List TimeEntry
  | [] => []
  | e :: rest =>
      if (acc.find? (fun x => x.id == e.id)).isSome then newcomers acc rest
      else e :: newcomers (acc ++ [e]) rest

/-- Modelled from the spec (section 4.3), for comparison only: worked
hours computed as the clock span minus the durations of the closed
breaks marked unpaid. -/
def specWorkedHours (clockIn clockOut : Int) (breaks : List BreakEntry) : ℚ :=
  let unpaidMs : Int :=
    (breaks.filter (fun b => !b.paid)).foldl
      (fun acc b => acc + match b.end_time with
                          | some e => e - b.start_time
                          | none => 0) 0
  ((clockOut - clockIn - unpaidMs : Int) : ℚ) / 3600000

/-! Concrete instances used in the counterexamples and witnesses. -/

/-- Project `'1'` of the mock catalogue. -/
def project1 : Project := ⟨"1", "Website Redesign", true⟩

/-- A closed, unpaid one-hour lunch break (0ms to 3600000ms). -/
def lunchBreak : BreakEntry := ⟨"break-1", "temp-1", .lunch, 0, some 3600000, false, none⟩

/-- In-flight entry clocked in at 0 with the one closed unpaid break. -/
def entryWithBreak : TimeEntry :=
  ⟨"temp-1", "current-user", "current-org", 0, 0, none, [lunchBreak], some "1",
   none, false, .draft, 0, 0, 0, 0, 0⟩

/-- Active session holding `entryWithBreak`, ready to stop validly. -/
def sessionWithBreak : TimerState :=
  ⟨true, false, some 0, none, some project1, none, 0, some entryWithBreak, none, "work"⟩

/-- In-flight entry with no project attached. -/
def entryNoProject : TimeEntry :=
  ⟨"temp-2", "current-user", "current-org", 0, 0, none, [], none,
   none, false, .draft, 0, 0, 0, 0, 0⟩

/-- Active session with no project selected and a whitespace-only
description. -/
def sessionUnfilled : TimerState :=
  ⟨true, false, some 0, none, none, none, 0, some entryNoProject, none, "   "⟩

/-- A break that is still open (no end timestamp). -/
def openBreak : BreakEntry := ⟨"break-2", "temp-3", .lunch, 10, none, false, none⟩

/-- In-flight entry whose break list holds one open break. -/
def entryOpenBreak : TimeEntry :=
  ⟨"temp-3", "current-user", "current-org", 0, 0, none, [openBreak], some "1",
   none, false, .draft, 0, 0, 0, 0, 0⟩

/-- Active session currently on the open break. -/
def sessionOnBreak : TimerState :=
  ⟨true, false, some 0, none, some project1, some .lunch, 0, some entryOpenBreak,
   some 10, "work"⟩

/-- Closed breaks for the `endBreak` witness: the last one already has
an end timestamp. -/
def breakOne : BreakEntry := ⟨"break-3", "temp-4", .short_break, 5, some 7, true, none⟩

/-- Second break of the `endBreak` witness. -/
def breakTwo : BreakEntry := ⟨"break-4", "temp-4", .lunch, 8, some 9, false, none⟩

/-- In-flight entry with two breaks. -/
def entryTwoBreaks : TimeEntry :=
  ⟨"temp-4", "current-user", "current-org", 0, 0, none, [breakOne, breakTwo], some "1",
   none, false, .draft, 0, 0, 0, 0, 0⟩

/-- Session with a recorded break start and `entryTwoBreaks` in flight. -/
def sessionTwoBreaks : TimerState :=
  ⟨true, false, some 0, none, some project1, some .lunch, 0, some entryTwoBreaks,
   some 8, "work"⟩

/-- Cached copy of entry `a` (stale: `updated_at` 10). -/
def cachedA : TimeEntry :=
  ⟨"a", "u", "o", 0, 0, none, [], none, none, false, .submitted, 0, 0, 0, 30, 10⟩

/-- Cached copy of entry `b` (stale: `updated_at` 11). -/
def cachedB : TimeEntry :=
  ⟨"b", "u", "o", 0, 0, none, [], none, none, false, .submitted, 0, 0, 0, 20, 11⟩

/-- Cached entry `c` (only in the cache). -/
def cachedC : TimeEntry :=
  ⟨"c", "u", "o", 0, 0, none, [], none, none, false, .submitted, 0, 0, 0, 10, 12⟩

/-- Fresher in-memory copy of entry `a` (`updated_at` 20). -/
def freshA : TimeEntry :=
  ⟨"a", "u", "o", 0, 0, none, [], none, none, false, .submitted, 0, 0, 0, 31, 20⟩

/-- Fresher in-memory copy of entry `b` (`updated_at` 21). -/
def freshB : TimeEntry :=
  ⟨"b", "u", "o", 0, 0, none, [], none, none, false, .submitted, 0, 0, 0, 21, 21⟩

/-- The cached list of three entries. -/
def cachedThree : List TimeEntry := [cachedA, cachedB, cachedC]

/-- The in-memory list sharing two ids, both with later `updated_at`. -/
def freshTwo : List TimeEntry := [freshA, freshB]

/-- An entry whose id was minted by the `createManualEntry` fallback. -/
def manualEntryFive : TimeEntry :=
  ⟨"manual-5", "current-user", "current-org", 0, 0, some 3600000, [], some "1",
   some "imported", true, .submitted, 1, 0, 1, 5, 5⟩

/-- A patch that only changes the description. -/
def patchDescription : EntryPatch :=
  ⟨some "edited", none, none, none, none, none, none, none, none⟩

/-- Manual-entry form spanning exactly one second (start 0ms, end
1000ms). -/
def formOneSecond : ManualEntryForm := ⟨some "1", some "quick fix", true, 0, 0, 1000, 0⟩

/-- Manual-entry form whose end (09:00) is before its start (10:00). -/
def formNegative : ManualEntryForm :=
  ⟨some "1", some "late fix", true, 0, 36000000, 32400000, 0⟩

end Weyobe

namespace Weyobe

/-- Splitting worked hours at the 8-hour threshold loses nothing. -/
theorem min_add_max_sub (w : ℚ) : min w 8 + max 0 (w - 8) = w := by
  rcases le_total w 8 with h | h
  · rw [min_eq_left h, max_eq_left (by linarith)]
    ring
  · rw [min_eq_right h, max_eq_right (by linarith)]
    ring

/-- C1, as stated, fails: on a one-second manual entry the stored
`regular_hours` is `1/3600` (unrounded) while `total_hours` is `0`, so
`total_hours ≠ regular_hours + overtime_hours` and `regular_hours` is
not a two-decimal value. -/
theorem C1_counterexample :
    let e := (createManualEntry formOneSecond .fail 5 [] []).returned
    e.regular_hours = 1/3600 ∧ e.overtime_hours = 0 ∧ e.total_hours = 0 ∧
    e.total_hours ≠ e.regular_hours + e.overtime_hours ∧
    e.regular_hours ≠ round2 e.regular_hours := by
  refine ⟨?_, ?_, ?_, ?_, ?_⟩ <;>
    simp only [createManualEntry, formOneSecond] <;>
    norm_num [round2]

/-- C1 (amended): on both local fallback paths `regular_hours = min(worked, 8)`
and `overtime_hours = max(0, worked − 8)` are stored unrounded; only
`total_hours = round2(worked)` is rounded, and `regular + overtime`
recovers the exact worked hours, so `total_hours = round2(regular + overtime)`. -/
theorem C1_amended :
    (∀ (d : ManualEntryForm) (t : Int) (store cache : List TimeEntry),
      d.startMs ≤ d.endMs →
      let w : ℚ := ((d.endMs - d.startMs : Int) : ℚ) / 3600000
      let e := (createManualEntry d .fail t store cache).returned
      e.regular_hours = min w 8 ∧ e.overtime_hours = max 0 (w - 8) ∧
      e.total_hours = round2 w ∧
      e.regular_hours + e.overtime_hours = w ∧
      e.total_hours = round2 (e.regular_hours + e.overtime_hours)) ∧
    (∀ (s : TimerState) (entry : TimeEntry) (t : Int) (cache : List TimeEntry),
      s.currentTimeEntry = some entry →
      validateTimerFields s = [] → entry.clock_in ≤ t →
      let w : ℚ := ((t - entry.clock_in : Int) : ℚ) / 3600000
      ((stopTimer s .fail t cache).2.2).head?.map
          (fun u => (u.regular_hours, u.overtime_hours, u.total_hours))
        = some (min w 8, max 0 (w - 8), round2 w) ∧
      min w 8 + max 0 (w - 8) = w) := by
  constructor
  · intro d t store cache _
    refine ⟨rfl, rfl, rfl, min_add_max_sub _, ?_⟩
    exact congrArg round2 (min_add_max_sub (((d.endMs - d.startMs : Int) : ℚ) / 3600000)).symm
  · intro s entry t cache hEntry hValid _
    refine ⟨?_, min_add_max_sub _⟩
    simp only [stopTimer, hValid, hEntry]
    rfl

/-- Witness for `C1_amended`, at the one-second manual form and the
session holding `entryWithBreak`. -/
theorem C1_witness :
    (formOneSecond.startMs ≤ formOneSecond.endMs ∧
      (let w : ℚ := ((formOneSecond.endMs - formOneSecond.startMs : Int) : ℚ) / 3600000
       let e := (createManualEntry formOneSecond .fail 5 [] []).returned
       e.regular_hours = min w 8 ∧ e.overtime_hours = max 0 (w - 8) ∧
       e.total_hours = round2 w ∧
       e.regular_hours + e.overtime_hours = w ∧
       e.total_hours = round2 (e.regular_hours + e.overtime_hours))) ∧
    (sessionWithBreak.currentTimeEntry = some entryWithBreak ∧
      validateTimerFields sessionWithBreak = [] ∧ entryWithBreak.clock_in ≤ 7200000 ∧
      (let w : ℚ := ((7200000 - entryWithBreak.clock_in : Int) : ℚ) / 3600000
       ((stopTimer sessionWithBreak .fail 7200000 []).2.2).head?.map
           (fun u => (u.regular_hours, u.overtime_hours, u.total_hours))
         = some (min w 8, max 0 (w - 8), round2 w) ∧
       min w 8 + max 0 (w - 8) = w)) :=
  ⟨⟨by decide, C1_amended.1 formOneSecond 5 [] [] (by decide)⟩,
   ⟨rfl, by decide, by decide,
    C1_amended.2 sessionWithBreak entryWithBreak 7200000 [] rfl (by decide) (by decide)⟩⟩

end Weyobe

namespace Weyobe

/-- C2, as stated, fails: stopping at 7200000ms a session clocked in at
0ms with a closed unpaid one-hour break stores `total_hours = 2` (the
raw clock span), while the spec's worked duration (span minus unpaid
breaks) is 1. -/
theorem C2_counterexample :
    ((stopTimer sessionWithBreak .fail 7200000 []).2.2).head?.map TimeEntry.total_hours
      = some 2 ∧
    entryWithBreak.break_entries = [lunchBreak] ∧
    specWorkedHours 0 7200000 [lunchBreak] = 1 ∧
    (2 : ℚ) ≠ 1 := by
  have hv : validateTimerFields sessionWithBreak = [] := by decide
  refine ⟨?_, rfl, ?_, by norm_num⟩
  · simp only [stopTimer, hv]
    norm_num [sessionWithBreak, entryWithBreak, round2]
  · norm_num [specWorkedHours, lunchBreak]

/-- C2 (amended): the worked duration used by the hours calculation is
the raw clock span `clock_out − clock_in`; break entries, paid or
unpaid, are never subtracted (the stored total depends only on the
span, whatever the break list holds), and manual entries are created
with an empty break list. -/
theorem C2_amended :
    (∀ (s : TimerState) (entry : TimeEntry) (t : Int) (cache : List TimeEntry),
      s.currentTimeEntry = some entry → validateTimerFields s = [] →
      ((stopTimer s .fail t cache).2.2).head?.map TimeEntry.total_hours
        = some (round2 (((t - entry.clock_in : Int) : ℚ) / 3600000))) ∧
    (∀ (d : ManualEntryForm) (t : Int) (store cache : List TimeEntry),
      (createManualEntry d .fail t store cache).returned.total_hours
        = round2 (((d.endMs - d.startMs : Int) : ℚ) / 3600000) ∧
      (createManualEntry d .fail t store cache).returned.break_entries = []) := by
  constructor
  · intro s entry t cache hEntry hValid
    simp only [stopTimer, hValid, hEntry]
    rfl
  · intro d t store cache
    exact ⟨rfl, rfl⟩

/-- Witness for `C2_amended` at the session holding the unpaid break
and at the one-second manual form. -/
theorem C2_witness :
    (sessionWithBreak.currentTimeEntry = some entryWithBreak ∧
      validateTimerFields sessionWithBreak = [] ∧
      ((stopTimer sessionWithBreak .fail 7200000 []).2.2).head?.map TimeEntry.total_hours
        = some (round2 (((7200000 - entryWithBreak.clock_in : Int) : ℚ) / 3600000))) ∧
    ((createManualEntry formOneSecond .fail 5 [] []).returned.total_hours
        = round2 (((formOneSecond.endMs - formOneSecond.startMs : Int) : ℚ) / 3600000) ∧
      (createManualEntry formOneSecond .fail 5 [] []).returned.break_entries = []) :=
  ⟨⟨rfl, by decide,
    C2_amended.1 sessionWithBreak entryWithBreak 7200000 [] rfl (by decide)⟩,
   C2_amended.2 formOneSecond 5 [] []⟩

/-- C3, as stated, fails: a second `startTimer` while active replaces
the session start timestamp (2000) instead of keeping the first one
(1000). -/
theorem C3_counterexample :
    (startTimer (startTimer initialTimerState .fail none 1000) .fail none 2000).startTime
      = some 2000 ∧
    (startTimer initialTimerState .fail none 1000).startTime = some 1000 ∧
    some (2000 : Int) ≠ some (1000 : Int) := by
  refine ⟨rfl, rfl, by decide⟩

/-- C3 (amended): `startTimer` has no idempotency guard.  A second start
while active replaces the session: the state after two consecutive
starts is active with the second call's start timestamp, elapsed time 0,
and the second call's in-flight entry; the first call's session data is
lost.  (Exactly one session exists, since the store holds one.) -/
theorem C3_amended :
    ∀ (s : TimerState) (r1 r2 : RemoteResult TimeEntry)
      (p1 p2 : Option String) (t1 t2 : Int),
      let s2 := startTimer (startTimer s r1 p1 t1) r2 p2 t2
      s2.isActive = true ∧ s2.isPaused = false ∧ s2.startTime = some t2 ∧
      s2.elapsedTime = 0 ∧ s2.pausedTime = none ∧ s2.currentBreakType = none ∧
      s2.currentTimeEntry = (match r2 with
                             | .ok e => some e
                             | .fail => some (newTimerEntry p2 t2)) := by
  intro s r1 r2 p1 p2 t1 t2
  cases r2 <;> exact ⟨rfl, rfl, rfl, rfl, rfl, rfl, rfl⟩

/-- C4: stopping with no project selected and a blank description
returns exactly the two validation errors and leaves the timer state
(still active) and the durable cache untouched, for any remote
behavior. -/
theorem C4_stop_validation :
    ∀ (s : TimerState) (remote : RemoteResult TimeEntry) (t : Int)
      (cache : List TimeEntry),
      s.isActive = true → s.currentProject = none →
      s.currentTimeEntry.bind TimeEntry.project_id = none →
      isBlank s.description = true →
      stopTimer s remote t cache =
        (⟨false, some ["Please select a project",
                       "Please describe what you\x27re working on"]⟩, s, cache) ∧
      (stopTimer s remote t cache).2.1.isActive = true := by
  intro s remote t cache hActive hProj hEntryProj hDesc
  have hv : validateTimerFields s =
      ["Please select a project", "Please describe what you\x27re working on"] := by
    simp [validateTimerFields, hProj, hEntryProj, hDesc, truthy]
  constructor
  · simp [stopTimer, hv]
  · simp [stopTimer, hv, hActive]

/-- Witness for `C4_stop_validation` at `sessionUnfilled` (whitespace
description, no project anywhere). -/
theorem C4_witness :
    (sessionUnfilled.isActive = true ∧ sessionUnfilled.currentProject = none ∧
      sessionUnfilled.currentTimeEntry.bind TimeEntry.project_id = none ∧
      isBlank sessionUnfilled.description = true) ∧
    (stopTimer sessionUnfilled .fail 99 [] =
        (⟨false, some ["Please select a project",
                       "Please describe what you\x27re working on"]⟩, sessionUnfilled, []) ∧
      (stopTimer sessionUnfilled .fail 99 []).2.1.isActive = true) :=
  ⟨⟨rfl, rfl, rfl, by decide⟩,
   C4_stop_validation sessionUnfilled .fail 99 [] rfl rfl rfl (by decide)⟩

/-- C8, as stated, fails: a manual form whose end (09:00) precedes its
start (10:00) is not rejected when the remote create fails — the local
entry is adopted into the store and the cache with `total_hours = -1`. -/
theorem C8_counterexample :
    let r := createManualEntry formNegative .fail 7 [] []
    r.returned.total_hours = -1 ∧ r.returned.regular_hours = -1 ∧
    r.store = [r.returned] ∧ r.cache = [r.returned] ∧ ((-1 : ℚ) < 0) := by
  refine ⟨?_, ?_, rfl, rfl, by norm_num⟩ <;>
    simp only [createManualEntry, formNegative] <;>
    norm_num [round2]

/-- C8 (amended): `createManualEntry` performs no validation of the
derived time range.  When the remote create fails, the negative-duration
input is adopted unchanged: an entry with `regular_hours < 0` (equal to
the exact negative worked span, not clamped) is inserted into the store
and pushed onto the durable cache; no error is raised. -/
theorem C8_amended :
    ∀ (d : ManualEntryForm) (t : Int) (store cache : List TimeEntry),
      d.endMs < d.startMs →
      let r := createManualEntry d .fail t store cache
      r.returned.regular_hours = ((d.endMs - d.startMs : Int) : ℚ) / 3600000 ∧
      r.returned.regular_hours < 0 ∧
      r.store = addTimeEntry store r.returned ∧
      r.cache = (r.returned :: cache).take 100 := by
  intro d t store cache h
  have hneg : (((d.endMs - d.startMs : Int) : ℚ) / 3600000) < 0 := by
    apply div_neg_of_neg_of_pos _ (by norm_num)
    exact_mod_cast Int.sub_neg_of_lt h
  refine ⟨?_, ?_, rfl, rfl⟩
  · show min (((d.endMs - d.startMs : Int) : ℚ) / 3600000) 8 = _
    exact min_eq_left (by linarith)
  · show min (((d.endMs - d.startMs : Int) : ℚ) / 3600000) 8 < 0
    rw [min_eq_left (by linarith)]
    exact hneg

/-- Witness for `C8_amended` at the negative-span form. -/
theorem C8_witness :
    formNegative.endMs < formNegative.startMs ∧
    (let r := createManualEntry formNegative .fail 7 [] []
     r.returned.regular_hours = ((formNegative.endMs - formNegative.startMs : Int) : ℚ) / 3600000 ∧
     r.returned.regular_hours < 0 ∧
     r.store = addTimeEntry [] r.returned ∧
     r.cache = (r.returned :: []).take 100) :=
  ⟨by decide, C8_amended formNegative 7 [] [] (by decide)⟩

end Weyobe

namespace Weyobe

/-- C5, as stated, fails: starting a lunch break while `sessionOnBreak`
already holds an open break appends a second break entry, leaving two
breaks with no end timestamp. -/
theorem C5_counterexample :
    (entryOpenBreak.break_entries.filter (fun b => b.end_time == none)).length = 1 ∧
    ((startBreak sessionOnBreak .lunch 99).currentTimeEntry.map
        (fun e => (e.break_entries.filter (fun b => b.end_time == none)).length))
      = some 2 ∧
    (2 : ℕ) ≠ 1 := by
  refine ⟨by decide, by decide, by decide⟩

/-- C5 (amended): `startBreak` performs no open-break check.  Whenever a
time entry is in flight it unconditionally appends a fresh break entry
(open, with the given kind) and records the break start, even if the
previous break is still open, so a time entry can accumulate several
open breaks. -/
theorem C5_amended :
    ∀ (s : TimerState) (entry : TimeEntry) (k : BreakType) (t : Int),
      s.currentTimeEntry = some entry →
      startBreak s k t =
        { s with currentBreakType := some k, breakStartTime := some t,
                 currentTimeEntry := some
                   { entry with break_entries :=
                       entry.break_entries ++ [newBreakEntry entry.id k t] } } := by
  intro s entry k t hEntry
  simp [startBreak, hEntry]

/-- Witness for `C5_amended` at the session whose entry already has an
open break. -/
theorem C5_witness :
    sessionOnBreak.currentTimeEntry = some entryOpenBreak ∧
    startBreak sessionOnBreak .lunch 99 =
      { sessionOnBreak with currentBreakType := some .lunch, breakStartTime := some 99,
                            currentTimeEntry := some
                              { entryOpenBreak with break_entries :=
                                  entryOpenBreak.break_entries ++
                                    [newBreakEntry entryOpenBreak.id .lunch 99] } } :=
  ⟨rfl, C5_amended sessionOnBreak entryOpenBreak .lunch 99 rfl⟩

/-- C7, as stated, fails: the provisional id `manual-5` (minted by the
`createManualEntry` fallback) is not matched by the local-entry
heuristic, so `editTimeEntry` issues one remote call for it. -/
theorem C7_counterexample :
    isLocalEntry "manual-5" = false ∧
    (editTimeEntry "manual-5" patchDescription .fail 10 [manualEntryFive] []).remoteCalls
      = 1 ∧
    (1 : ℕ) ≠ 0 := by
  refine ⟨by decide, by decide, by decide⟩

/-- C7 (amended): only ids recognised by the heuristic — prefix `temp-`
or the mock ids `1`, `2`, `3` — are updated purely locally: for them
`editTimeEntry` issues no remote call and its whole outcome is
independent of the remote collaborator.  Ids minted as `manual-…` by the
manual-entry fallback are not recognised and do trigger a remote call. -/
theorem C7_amended :
    ∀ (id : String) (data : EntryPatch) (r r' : RemoteResult TimeEntry)
      (t : Int) (store cache : List TimeEntry),
      isLocalEntry id = true →
      (editTimeEntry id data r t store cache).remoteCalls = 0 ∧
      editTimeEntry id data r t store cache = editTimeEntry id data r' t store cache := by
  intro id data r r' t store cache h
  constructor
  · simp only [editTimeEntry, h, if_true]
    cases store.find? (fun e => e.id == id) <;> rfl
  · simp only [editTimeEntry, h, if_true]

/-- Witness for `C7_amended` at a `temp-` id, with the two remote
behaviors differing. -/
theorem C7_witness :
    isLocalEntry "temp-7" = true ∧
    ((editTimeEntry "temp-7" patchDescription .fail 10 [] []).remoteCalls = 0 ∧
      editTimeEntry "temp-7" patchDescription .fail 10 [] [] =
        editTimeEntry "temp-7" patchDescription (.ok manualEntryFive) 10 [] []) :=
  ⟨by decide,
   C7_amended "temp-7" patchDescription .fail (.ok manualEntryFive) 10 [] [] (by decide)⟩

/-- The last-element update of `endBreak`, on a list exposed as
`xs ++ [b]`. -/
theorem setLastEnd_append (t : Int) (xs : List BreakEntry) (b : BreakEntry) :
    setLastEnd t (xs ++ [b]) = xs ++ [{ b with end_time := some t }] := by
  induction xs with
  | nil => rfl
  | cons x rest ih =>
      cases rest with
      | nil => rfl
      | cons y ys => simpa [setLastEnd] using ih

/-- C10: with a recorded break start and a non-empty break list,
`endBreak` stamps the end timestamp on exactly the last break entry
(whether or not it already had one) and clears the session's break kind
and break start; every other field of the entry and the session is
unchanged.  Without a recorded break start or an in-flight entry it is a
no-op. -/
theorem C10_endBreak :
    ∀ (s : TimerState) (t : Int),
      (∀ (entry : TimeEntry) (bs : Int) (xs : List BreakEntry) (b : BreakEntry),
        s.currentTimeEntry = some entry → s.breakStartTime = some bs →
        entry.break_entries = xs ++ [b] →
        endBreak s t =
          { s with currentBreakType := none, breakStartTime := none,
                   currentTimeEntry := some
                     { entry with break_entries :=
                         xs ++ [{ b with end_time := some t }] } }) ∧
      ((s.currentTimeEntry = none ∨ s.breakStartTime = none) → endBreak s t = s) := by
  intro s t
  constructor
  · intro entry bs xs b hEntry hBs hBreaks
    simp only [endBreak, hEntry, hBs, hBreaks, setLastEnd_append]
    simp
  · intro h
    rcases h with h | h
    · simp only [endBreak, h]
    · rw [endBreak, h]
      cases s.currentTimeEntry <;> rfl

/-- Witness for `C10_endBreak`: ending the break of `sessionTwoBreaks`
re-stamps the already-closed last break, and `initialTimerState` is left
untouched. -/
theorem C10_witness :
    (sessionTwoBreaks.currentTimeEntry = some entryTwoBreaks ∧
      sessionTwoBreaks.breakStartTime = some 8 ∧
      entryTwoBreaks.break_entries = [breakOne] ++ [breakTwo] ∧
      endBreak sessionTwoBreaks 77 =
        { sessionTwoBreaks with currentBreakType := none, breakStartTime := none,
                                currentTimeEntry := some
                                  { entryTwoBreaks with break_entries :=
                                      [breakOne] ++ [{ breakTwo with end_time := some 77 }] } }) ∧
    (initialTimerState.currentTimeEntry = none ∨ initialTimerState.breakStartTime = none) ∧
    endBreak initialTimerState 77 = initialTimerState :=
  ⟨⟨rfl, rfl, rfl,
    (C10_endBreak sessionTwoBreaks 77).1 entryTwoBreaks 8 [breakOne] breakTwo rfl rfl rfl⟩,
   Or.inl rfl,
   (C10_endBreak initialTimerState 77).2 (Or.inl rfl)⟩

end Weyobe

namespace Weyobe

theorem take_append_take {α : Type} (n : ℕ) (A l : List α) :
    (A ++ l.take n).take n = (A ++ l).take n := by
  simp [List.take_append_eq_append_take, List.take_take]

theorem createManualEntry_cache (d : ManualEntryForm) (rm : RemoteResult TimeEntry)
    (t : Int) (store cache : List TimeEntry) :
    (createManualEntry d rm t store cache).cache =
      (callEntry (d, rm, t) :: cache).take 100 := by
  cases rm <;> rfl

theorem runCreateManual_cons (c : ManualEntryForm × RemoteResult TimeEntry × Int)
    (rest : List (ManualEntryForm × RemoteResult TimeEntry × Int))
    (store cache : List TimeEntry) :
    runCreateManual (c :: rest) store cache =
      runCreateManual rest (createManualEntry c.1 c.2.1 c.2.2 store cache).store
        (createManualEntry c.1 c.2.1 c.2.2 store cache).cache := rfl

theorem runCreateManual_cache :
    ∀ (calls : List (ManualEntryForm × RemoteResult TimeEntry × Int))
      (store cache : List TimeEntry), cache.take 100 = cache →
      (runCreateManual calls store cache).2 =
        ((calls.map callEntry).reverse ++ cache).take 100 := by
  intro calls
  induction calls with
  | nil =>
      intro store cache h
      simp only [List.map_nil, List.reverse_nil, List.nil_append]
      exact h.symm
  | cons c rest ih =>
      intro store cache h
      rw [runCreateManual_cons, createManualEntry_cache, ih _ _ (by simp [List.take_take]),
        take_append_take]
      simp [List.append_assoc]

/-- C9: starting from an empty durable cache, any sequence of
`createManualEntry` calls leaves the cache equal to the adopted entries
in reverse call order (most recent first) truncated to 100, so the
oldest entries are evicted and the cache never exceeds 100 entries — in
particular 101 calls leave exactly the 100 most recent. -/
theorem C9_cache_cap :
    ∀ calls : List (ManualEntryForm × RemoteResult TimeEntry × Int),
      (runCreateManual calls [] []).2 = ((calls.map callEntry).reverse).take 100 ∧
      ((runCreateManual calls [] []).2).length ≤ 100 := by
  intro calls
  have h := runCreateManual_cache calls [] [] rfl
  refine ⟨by simpa using h, ?_⟩
  rw [h]
  simp [List.length_take]

theorem insertByCreated_perm (e : TimeEntry) (l : List TimeEntry) :
    List.Perm (insertByCreated e l) (e :: l) := by
  induction l with
  | nil => exact List.Perm.refl _
  | cons x rest ih =>
      by_cases h : x.created_at < e.created_at
      · simp [insertByCreated, h]
      · simp only [insertByCreated, if_neg h]
        exact (ih.cons x).trans (List.Perm.swap e x rest)

theorem sortByCreatedDesc_perm (l : List TimeEntry) :
    List.Perm (sortByCreatedDesc l) l := by
  induction l with
  | nil => exact List.Perm.refl _
  | cons e rest ih => exact (insertByCreated_perm e _).trans (ih.cons e)

theorem mem_sortByCreatedDesc {a : TimeEntry} {l : List TimeEntry} :
    a ∈ sortByCreatedDesc l ↔ a ∈ l :=
  (sortByCreatedDesc_perm l).mem_iff

theorem mergeDedup_eq_newcomers :
    ∀ (mem acc : List TimeEntry), mergeDedup acc mem = acc ++ newcomers acc mem := by
  intro mem
  induction mem with
  | nil => intro acc; simp [mergeDedup, newcomers]
  | cons e rest ih =>
      intro acc
      by_cases h : (acc.find? (fun x => x.id == e.id)).isSome
      · simp only [mergeDedup, List.foldl_cons, if_pos h, newcomers]
        exact ih acc
      · simp only [mergeDedup, List.foldl_cons, if_neg h, newcomers]
        rw [show (List.foldl _ (acc ++ [e]) rest : List TimeEntry) = mergeDedup (acc ++ [e]) rest from rfl,
          ih (acc ++ [e])]
        simp

theorem newcomers_not_matched :
    ∀ (mem acc : List TimeEntry) (x : TimeEntry), x ∈ newcomers acc mem →
      ∀ c ∈ acc, (c.id == x.id) = false := by
  intro mem
  induction mem with
  | nil => intro acc x hx; simp [newcomers] at hx
  | cons e rest ih =>
      intro acc x hx c hc
      by_cases h : (acc.find? (fun y => y.id == e.id)).isSome
      · rw [newcomers, if_pos h] at hx
        exact ih acc x hx c hc
      · rw [newcomers, if_neg h] at hx
        rcases List.mem_cons.mp hx with rfl | hx
        · have hnone : acc.find? (fun y => y.id == x.id) = none := by
            cases hfind : acc.find? (fun y => y.id == x.id) with
            | none => rfl
            | some v => rw [hfind] at h; simp at h
          have := List.find?_eq_none.mp hnone c hc
          simpa using this
        · exact ih (acc ++ [e]) x hx c (List.mem_append_left _ hc)

/-- C6, as stated, fails: merging the cached list (entries `a`, `b`,
`c`, stale) with the in-memory list (fresher copies of `a` and `b`,
later `updated_at`) keeps the cached copy of `a` (`updated_at` 10), not
the fresher one (`updated_at` 20). -/
theorem C6_counterexample :
    ((loadFromLocalStorage cachedThree freshTwo).find? (fun e => e.id == "a")).map
        TimeEntry.updated_at = some 10 ∧
    freshA.id = "a" ∧ freshA.updated_at = 20 ∧ ((10 : Int) = 20 → False) := by
  refine ⟨by decide, rfl, rfl, by decide⟩

/-- C6 (amended): the merge de-duplicates solely by id, but when a
cached and an in-memory copy share an id the cached copy wins —
`updated_at` is never consulted.  Every cached entry survives the merge;
an in-memory entry whose id already occurs in the cache is dropped.
Merging the concrete 3-entry cache with 2 fresher in-memory copies
yields exactly the 3 cached versions. -/
theorem C6_amended :
    (∀ (cached mem : List TimeEntry) (e : TimeEntry),
       e ∈ cached → e ∈ loadFromLocalStorage cached mem) ∧
    (∀ (cached mem : List TimeEntry) (e : TimeEntry),
       e ∈ mem → (∃ c ∈ cached, c.id = e.id) → e ∉ cached →
       e ∉ loadFromLocalStorage cached mem) ∧
    ((loadFromLocalStorage cachedThree freshTwo).map (fun e => (e.id, e.updated_at))
       = [("a", 10), ("b", 11), ("c", 12)]) := by
  refine ⟨?_, ?_, by decide⟩
  · intro cached mem e he
    rw [loadFromLocalStorage, mem_sortByCreatedDesc, mergeDedup_eq_newcomers]
    exact List.mem_append_left _ he
  · rintro cached mem e hmem ⟨c, hc, hid⟩ hnotc hresult
    rw [loadFromLocalStorage, mem_sortByCreatedDesc, mergeDedup_eq_newcomers] at hresult
    rcases List.mem_append.mp hresult with h | h
    · exact hnotc h
    · have := newcomers_not_matched mem cached e h c hc
      rw [hid] at this
      simp at this

/-- Witness for `C6_amended`: the stale `cachedA` survives the merge,
while the fresher `freshA` (same id, later `updated_at`) is dropped. -/
theorem C6_witness :
    (cachedA ∈ cachedThree ∧ cachedA ∈ loadFromLocalStorage cachedThree freshTwo) ∧
    (freshA ∈ freshTwo ∧ (∃ c ∈ cachedThree, c.id = freshA.id) ∧ freshA ∉ cachedThree ∧
      freshA ∉ loadFromLocalStorage cachedThree freshTwo) :=
  ⟨⟨List.mem_cons_self cachedA [cachedB, cachedC],
    C6_amended.1 cachedThree freshTwo cachedA (List.mem_cons_self cachedA [cachedB, cachedC])⟩,
   ⟨List.mem_cons_self freshA [freshB],
    ⟨cachedA, List.mem_cons_self cachedA [cachedB, cachedC], rfl⟩,
    by decide,
    C6_amended.2.1 cachedThree freshTwo freshA (List.mem_cons_self freshA [freshB])
      ⟨cachedA, List.mem_cons_self cachedA [cachedB, cachedC], rfl⟩ (by decide)⟩⟩

end Weyobe
